import Mathlib

/-!
Shallow embedding of the WeChat enterprise-application (corp account) delivery
channel of Message-Push-Nest: the channel dispatcher `SendUnified`
(channels/wechat_corp_account.go), and the channel client, credential cache and
transport selector (pkg/message/wechat_corp_account.go).

Conventions of the embedding:
* Go `(T, error)` results become `T × Option String` (the `error` is `none`
  when Go returns `nil`) or `Except String T` where only one of the two
  components is meaningful.
* `time.Time` is modelled as `Int` (seconds); `time.Duration` arithmetic in
  the source only ever adds whole seconds.
* Network I/O, JSON (un)marshalling and the external collaborators
  (`ValidateDiffIns`, `BaseChannel.FormatContent`, `url.Parse`,
  `proxy.SOCKS5`) are oracles passed in as explicit arguments; the embedded
  functions record which network-touching steps they perform in an effect
  trace so that "no network activity" is a provable statement.
-/

/-- Modelled from the spec: the channel format-kind constants
`FormatTypeMarkdown` / `FormatTypeText` come from the channels package
(declared outside the two embedded files); the spec fixes the format set of
this channel as the kinds markdown and text. -/
def FormatTypeMarkdown : String := "markdown"

/-- Modelled from the spec: see `FormatTypeMarkdown`. -/
def FormatTypeText : String := "text"

/-- `models.InsWeChatCorpAccountConfig`: the instance config materialised by
the validation collaborator; `SendUnified` only reads `ToAccount`. -/
structure InsWeChatCorpAccountConfig where
  ToAccount : String
deriving Repr, DecidableEq

/-- `send_way_service.WayDetailWeChatCorpAccount`: the per-way auth object. -/
structure WayDetailWeChatCorpAccount where
  CorpID : String
  AgentID : Int
  AgentSecret : String
  ProxyURL : String
deriving Repr, DecidableEq

/-- `channels.UnifiedMessageContent`, restricted to the fields `SendUnified`
reads. `IsAtAll` and `AtUserIds` model the accessor methods `IsAtAll()` and
`GetAtUserIds()` (declared outside the embedded files; per the spec they
expose the content's `mentionAll` flag and `mentionUserIDs` list). -/
structure UnifiedMessageContent where
  Title : String
  URL : String
  IsAtAll : Bool
  AtUserIds : List String
deriving Repr, DecidableEq

/-- The concrete client call the dispatcher hands to the channel client:
`SendMarkdown`, `SendText` or `SendTextCard`, with the arguments passed. -/
inductive ClientCall where
  | markdown (toUser content : String)
  | text (toUser content : String)
  | textCard (toUser title description url : String)
deriving Repr, DecidableEq

/-- Result of one `SendUnified` dispatch: the returned pair
`(res, errMsg)` plus, for observability, which client call (if any) was
invoked. -/
structure DispatchOutcome where
  res : String
  errMsg : String
  call : Option ClientCall
deriving Repr, DecidableEq

/-- Target resolution, wechat_corp_account.go (channels) lines 39-47:
`toUser := config.ToAccount`, overridden by `"@all"` when `IsAtAll()`,
else by `strings.Join(atUserIds, "|")` when the at-list is non-empty. -/
def resolveTarget (config : InsWeChatCorpAccountConfig)
    (content : UnifiedMessageContent) : String :=
  if content.IsAtAll then "@all"
  else if content.AtUserIds.length > 0 then String.intercalate "|" content.AtUserIds
  else config.ToAccount

/-- Dispatch branching, channels lines 56-68: which client call the
negotiated content type selects (`none` = unknown content type). -/
def dispatchCall (contentType formattedContent toUser : String)
    (content : UnifiedMessageContent) : Option ClientCall :=
  if contentType = FormatTypeMarkdown then
    some (ClientCall.markdown toUser formattedContent)
  else if contentType = FormatTypeText then
    if content.Title ≠ "" ∧ content.URL ≠ "" then
      some (ClientCall.textCard toUser content.Title formattedContent content.URL)
    else
      some (ClientCall.text toUser formattedContent)
  else none

/-- `WeChatCorpAccountChannel.SendUnified` (channels file, lines 18-75).
Oracles: `castResult` is the `msgObj.(*WayDetailWeChatCorpAccount)` type
assertion (`none` = failed); `validateErr`/`validateConfig` are the two
components of `insService.ValidateDiffIns(ins)` with the follow-up config
type assertion folded into the `Option`; `formatResult` is
`c.FormatContent(content)`; `exec` runs the selected client call and yields
the client's `(res, sendErr)`. -/
def SendUnified (castResult : Option WayDetailWeChatCorpAccount)
    (validateErr : String) (validateConfig : Option InsWeChatCorpAccountConfig)
    (formatResult : Except String (String × String))
    (content : UnifiedMessageContent)
    (exec : ClientCall → String × Option String) : DispatchOutcome :=
  match castResult with
  | none => ⟨"", "类型转换失败", none⟩
  | some _auth =>
    if validateErr ≠ "" then ⟨validateErr, "", none⟩
    else
      match validateConfig with
      | none => ⟨"企业微信应用config校验失败", "", none⟩
      | some config =>
        match formatResult with
        | Except.error e => ⟨"", e, none⟩
        | Except.ok (contentType, formattedContent) =>
          match dispatchCall contentType formattedContent
              (resolveTarget config content) content with
          | some call =>
            match exec call with
            | (r, some e) => ⟨r, "发送失败：" ++ e, some call⟩
            | (r, none) => ⟨r, "", some call⟩
          | none =>
            ⟨"", "发送失败：" ++ ("未知的企业微信应用发送内容类型：" ++ contentType), none⟩

/-! ### pkg/message/wechat_corp_account.go -/

/-- `message.WeChatCorpAccount` (lines 62-67). -/
structure WeChatCorpAccount where
  CorpID : String
  AgentID : Int
  AgentSecret : String
  ProxyURL : String
deriving Repr, DecidableEq

/-- `wechatCorpTokenResponse` (lines 19-24). -/
structure WechatCorpTokenResponse where
  ErrCode : Int
  ErrMsg : String
  AccessToken : String
  ExpiresIn : Int
deriving Repr, DecidableEq

/-- `wechatCorpSendResponse` (lines 26-30). -/
structure WechatCorpSendResponse where
  ErrCode : Int
  ErrMsg : String
  InvalidUser : String
deriving Repr, DecidableEq

/-- `wechatCorpSendRequest` (lines 32-48); the three pointer-to-struct
payloads become `Option`s of their field tuples. -/
structure WechatCorpSendRequest where
  ToUser : String
  MsgType : String
  AgentID : Int
  Text : Option String
  Markdown : Option String
  TextCard : Option (String × String × String)
deriving Repr, DecidableEq

/-- `wechatCorpTokenCacheItem` (lines 50-53), with `expiresAt` in seconds. -/
structure WechatCorpTokenCacheItem where
  token : String
  expiresAt : Int
deriving Repr, DecidableEq

/-- The `wechatCorpTokenCache.m` map, as an association list where the most
recent write for a key shadows older entries. -/
abbrev TokenCache := List (String × WechatCorpTokenCacheItem)

/-- Map lookup on the token cache (first, i.e. most recent, binding wins). -/
def cacheLookup (cache : TokenCache) (key : String) :
    Option WechatCorpTokenCacheItem :=
  match cache with
  | [] => none
  | (k, v) :: rest => if k = key then some v else cacheLookup rest key

/-- `cacheKey` (lines 69-71): `fmt.Sprintf("%s|%d|%s", CorpID, AgentID, AgentSecret)`. -/
def cacheKey (c : WeChatCorpAccount) : String :=
  c.CorpID ++ "|" ++ toString c.AgentID ++ "|" ++ c.AgentSecret

/-- Outcome of `GetAccessToken`: the Go `(string, error)` result, the token
cache after the call, and whether `refreshAccessToken` was invoked (i.e.
whether a token-endpoint network call happened). -/
structure GetTokenResult where
  result : Except String String
  cache : TokenCache
  refreshCalled : Bool
deriving Repr

/-- The refresh-and-store tail of `GetAccessToken` (lines 89-98): run the
refresh; on error return it with the cache untouched, on success store the
new item under the config's key and return the token. -/
def GetAccessTokenRefresh (c : WeChatCorpAccount) (cache : TokenCache)
    (refresh : Except String (String × Int)) : GetTokenResult :=
  match refresh with
  | Except.error e => ⟨Except.error e, cache, true⟩
  | Except.ok (token, expiresAt) =>
    ⟨Except.ok token, (cacheKey c, ⟨token, expiresAt⟩) :: cache, true⟩

/-- `GetAccessToken` (lines 73-99). `now` is `time.Now()` at line 79;
`refresh` is the oracle outcome of `c.refreshAccessToken()`. -/
def GetAccessToken (c : WeChatCorpAccount) (cache : TokenCache) (now : Int)
    (refresh : Except String (String × Int)) : GetTokenResult :=
  if c.CorpID = "" ∨ c.AgentSecret = "" then
    ⟨Except.error "企业微信应用参数缺失", cache, false⟩
  else
    match cacheLookup cache (cacheKey c) with
    | some item =>
      if item.token ≠ "" ∧ now < item.expiresAt then ⟨Except.ok item.token, cache, false⟩
      else GetAccessTokenRefresh c cache refresh
    | none => GetAccessTokenRefresh c cache refresh

/-- `refreshAccessToken` (lines 101-130), from the parsed token-endpoint
response onward. `httpResp` collapses the HTTP GET, body read and JSON
unmarshal (lines 106-120): `Except.error` is any of their errors, `Except.ok`
the decoded `wechatCorpTokenResponse`. `now` is `time.Now()` at line 128.
On success returns the token and `expiresAt = now + ExpiresIn - 60`. -/
def refreshAccessToken (httpResp : Except String WechatCorpTokenResponse)
    (now : Int) : Except String (String × Int) :=
  match httpResp with
  | Except.error e => Except.error e
  | Except.ok res =>
    if res.ErrCode ≠ 0 then Except.error res.ErrMsg
    else if res.AccessToken = "" ∨ res.ExpiresIn ≤ 0 then
      Except.error "企业微信 access_token 响应无效"
    else Except.ok (res.AccessToken, now + res.ExpiresIn - 60)

/-- Network-touching steps `send` can perform, in order: token acquisition
(`GetAccessToken`, which may itself hit the token endpoint) and the delivery
HTTP POST. -/
inductive NetEffect where
  | getToken
  | httpPost
deriving Repr, DecidableEq

/-- Oracles for one `send` invocation: the `GetAccessToken` outcome, the
`json.Marshal(req)` outcome, the POST + body-read outcome (`Except.ok` is
the raw response body), and the `json.Unmarshal` of a body into a
`wechatCorpSendResponse`. -/
structure SendEnv where
  tokenResult : Except String String
  marshalResult : Except String String
  postResult : Except String String
  parse : String → Except String WechatCorpSendResponse

/-- Outcome of `send`: the Go `(string, error)` pair and the trace of
network-touching steps actually performed. -/
structure SendOutcome where
  body : String
  err : Option String
  effects : List NetEffect
deriving Repr, DecidableEq

/-- `send` (lines 174-217). -/
def send (c : WeChatCorpAccount) (req : WechatCorpSendRequest)
    (env : SendEnv) : SendOutcome :=
  if req.ToUser = "" then ⟨"", some "企业微信应用接收者不能为空", []⟩
  else if c.AgentID ≤ 0 then ⟨"", some "企业微信应用 AgentID 无效", []⟩
  else
    match env.tokenResult with
    | Except.error e => ⟨"", some e, [NetEffect.getToken]⟩
    | Except.ok _token =>
      match env.marshalResult with
      | Except.error e => ⟨"", some e, [NetEffect.getToken]⟩
      | Except.ok _b =>
        match env.postResult with
        | Except.error e => ⟨"", some e, [NetEffect.getToken, NetEffect.httpPost]⟩
        | Except.ok body =>
          match env.parse body with
          | Except.error e => ⟨body, some e, [NetEffect.getToken, NetEffect.httpPost]⟩
          | Except.ok res =>
            if res.ErrCode ≠ 0 then
              if res.InvalidUser ≠ "" then
                ⟨body, some (res.ErrMsg ++ " (invaliduser=" ++ res.InvalidUser ++ ")"),
                  [NetEffect.getToken, NetEffect.httpPost]⟩
              else ⟨body, some res.ErrMsg, [NetEffect.getToken, NetEffect.httpPost]⟩
            else ⟨body, none, [NetEffect.getToken, NetEffect.httpPost]⟩

/-- `SendText` (lines 132-142). -/
def SendText (c : WeChatCorpAccount) (toUser content : String)
    (env : SendEnv) : SendOutcome :=
  send c ⟨toUser, "text", c.AgentID, some content, none, none⟩ env

/-- `SendMarkdown` (lines 144-154). -/
def SendMarkdown (c : WeChatCorpAccount) (toUser content : String)
    (env : SendEnv) : SendOutcome :=
  send c ⟨toUser, "markdown", c.AgentID, none, some content, none⟩ env

/-- `SendTextCard` (lines 156-172). -/
def SendTextCard (c : WeChatCorpAccount) (toUser title description linkURL : String)
    (env : SendEnv) : SendOutcome :=
  send c ⟨toUser, "textcard", c.AgentID, none, none,
    some (title, description, linkURL)⟩ env

/-! ### Transport selector (`getHTTPClient`, lines 219-278) -/

/-- The user-info component of a parsed URL (`url.URL.User`); `password` is
`none` when the URL carries no `:password` part. -/
structure URLUserinfo where
  username : String
  password : Option String
deriving Repr, DecidableEq

/-- The pieces of a parsed proxy `url.URL` that `getHTTPClient` and
`createSOCKS5Dialer` read. -/
structure ParsedURL where
  host : String
  user : Option URLUserinfo
deriving Repr, DecidableEq

/-- `proxy.Auth` for a SOCKS5 dial. -/
structure Socks5Auth where
  user : String
  password : String
deriving Repr, DecidableEq

/-- The transport shape `getHTTPClient` installs on the client. -/
inductive HTTPTransportKind where
  | direct
  | socks5 (auth : Option Socks5Auth)
  | forwardProxy (u : ParsedURL)
deriving Repr, DecidableEq

/-- The observable shape of the `http.Client` built by `getHTTPClient`. -/
structure HTTPClientShape where
  timeoutSeconds : Nat
  transport : HTTPTransportKind
deriving Repr, DecidableEq

/-- The `strings.HasPrefix(strings.ToLower(url), "socks5://")` test at
line 233, expressed over the character list: the URL, lowercased
characterwise, starts with the literal scheme `socks5://` (which is pure
ASCII, where characterwise lowercasing agrees with `strings.ToLower`). -/
def hasSocks5Scheme (s : String) : Bool :=
  ("socks5://".data).isPrefixOf (s.data.map Char.toLower)

/-- The SOCKS5 `proxy.Auth` that `createSOCKS5Dialer` derives from the
parsed URL's user-info (lines 253-260): absent user-info means no auth; an
absent password becomes the empty string. -/
def socks5AuthOf (u : ParsedURL) : Option Socks5Auth :=
  match u.user with
  | none => none
  | some info => some ⟨info.username, info.password.getD ""⟩

/-- `getHTTPClient` (lines 219-248). Oracles: `parseURL` is `url.Parse`
(`none` = parse error); `dialerOK u` says whether `createSOCKS5Dialer`
succeeds for that URL (`proxy.SOCKS5` construction plus the
`ContextDialer` assertion, lines 267-275). Every branch keeps the
15-second request timeout set at line 221. -/
def getHTTPClient (c : WeChatCorpAccount)
    (parseURL : String → Option ParsedURL)
    (dialerOK : ParsedURL → Bool) : HTTPClientShape :=
  if c.ProxyURL = "" then ⟨15, HTTPTransportKind.direct⟩
  else
    match parseURL c.ProxyURL with
    | none => ⟨15, HTTPTransportKind.direct⟩
    | some u =>
      if hasSocks5Scheme c.ProxyURL then
        if dialerOK u then ⟨15, HTTPTransportKind.socks5 (socks5AuthOf u)⟩
        else ⟨15, HTTPTransportKind.direct⟩
      else ⟨15, HTTPTransportKind.forwardProxy u⟩

/-! ### Claims -/

/-- Claim C1 (evidence of the divergence): at a send where the validation
collaborator returns the non-empty error string "参数校验失败", `SendUnified`
returns that string as the FIRST component (`responseBody`) and an EMPTY
`errorMessage` — so under the DeliveryResult contract (non-empty
`errorMessage` means failure) the validation failure is not signalled in the
`errorMessage` component, contrary to the claim. -/
theorem SendUnified_validation_error_lands_in_responseBody :
    SendUnified (some ⟨"corp", 1, "secret", ""⟩) "参数校验失败" none
      (Except.ok ("text", "hello")) ⟨"", "", false, []⟩ (fun _ => ("", none))
      = ⟨"参数校验失败", "", none⟩ := rfl

/-- Claim C2: target resolution obeys the strict three-tier precedence:
`IsAtAll` forces the `"@all"` sentinel regardless of the mention list;
otherwise a non-empty at-list is joined with `"|"`; otherwise the config's
default recipient `ToAccount` is used. -/
theorem resolveTarget_three_tier (config : InsWeChatCorpAccountConfig)
    (content : UnifiedMessageContent) :
    (content.IsAtAll = true → resolveTarget config content = "@all") ∧
    (content.IsAtAll = false → content.AtUserIds ≠ [] →
      resolveTarget config content = String.intercalate "|" content.AtUserIds) ∧
    (content.IsAtAll = false → content.AtUserIds = [] →
      resolveTarget config content = config.ToAccount) := by
  refine ⟨fun h => by simp [resolveTarget, h], fun h hne => ?_,
    fun h he => by simp [resolveTarget, h, he]⟩
  simp [resolveTarget, h, List.length_pos.mpr hne]

/-- Concrete instantiation of `resolveTarget_three_tier`: two explicit
mentions and no mention-all resolve to `"u1|u2"`. -/
theorem resolveTarget_three_tier_check :
    resolveTarget ⟨"default"⟩ ⟨"", "", false, ["u1", "u2"]⟩ = "u1|u2" :=
  (resolveTarget_three_tier ⟨"default"⟩ ⟨"", "", false, ["u1", "u2"]⟩).2.1 rfl
    (by decide)

/-- Claim C4: on a successful refresh the stored expiry is
`issueTime + ttlSeconds - 60`; in particular `ExpiresIn = 7200` puts the
expiry exactly 7140 seconds after the issue time. -/
theorem refreshAccessToken_expiry_margin (res : WechatCorpTokenResponse)
    (now : Int) (h0 : res.ErrCode = 0) (h1 : res.AccessToken ≠ "")
    (h2 : 0 < res.ExpiresIn) :
    refreshAccessToken (Except.ok res) now
      = Except.ok (res.AccessToken, now + res.ExpiresIn - 60) ∧
    (res.ExpiresIn = 7200 → now + res.ExpiresIn - 60 = now + 7140) := by
  constructor
  · simp [refreshAccessToken, h0, h1, not_le.mpr h2]
  · intro h
    rw [h]
    ring

/-- Concrete instantiation of `refreshAccessToken_expiry_margin` at
`ExpiresIn = 7200`, issue time 1000. -/
theorem refreshAccessToken_expiry_margin_check :
    refreshAccessToken (Except.ok ⟨0, "ok", "tok", 7200⟩) 1000
      = Except.ok ("tok", 1000 + 7200 - 60) ∧
    (1000 : Int) + 7200 - 60 = 1000 + 7140 :=
  ⟨(refreshAccessToken_expiry_margin ⟨0, "ok", "tok", 7200⟩ 1000 rfl (by decide)
      (by decide)).1,
   (refreshAccessToken_expiry_margin ⟨0, "ok", "tok", 7200⟩ 1000 rfl (by decide)
      (by decide)).2 rfl⟩

/-- Helper: when the identity fields are present and no valid cache entry
exists for the config's key (miss, empty stored token, or expired entry),
`GetAccessToken` proceeds to the refresh-and-store tail. -/
theorem GetAccessToken_miss (c : WeChatCorpAccount) (cache : TokenCache)
    (now : Int) (refresh : Except String (String × Int))
    (hc : c.CorpID ≠ "") (hs : c.AgentSecret ≠ "")
    (hmiss : ∀ item, cacheLookup cache (cacheKey c) = some item →
      item.token = "" ∨ item.expiresAt ≤ now) :
    GetAccessToken c cache now refresh = GetAccessTokenRefresh c cache refresh := by
  simp only [GetAccessToken]
  rw [if_neg (by simp [hc, hs])]
  cases hl : cacheLookup cache (cacheKey c) with
  | none => rfl
  | some item =>
    have hcond : ¬(item.token ≠ "" ∧ now < item.expiresAt) := by
      rcases hmiss item hl with h | h
      · intro hh
        exact hh.1 h
      · intro hh
        exact absurd hh.2 (not_lt.mpr h)
    simp [hcond]

/-- Claim C3: configs with identical identity fields share one cache key
(hence one cache entry); a looked-up entry with a non-empty token and
`now < expiresAt` is returned as-is with no refresh call and no cache
change; a looked-up entry that is expired (`expiresAt ≤ now`) is never
returned — the call triggers a refresh and its result is exactly the
refresh outcome. -/
theorem GetAccessToken_cache_contract (c1 c2 : WeChatCorpAccount)
    (cache : TokenCache) (now : Int) (refresh : Except String (String × Int))
    (item : WechatCorpTokenCacheItem)
    (hc : c1.CorpID ≠ "") (hs : c1.AgentSecret ≠ "")
    (hid : c1.CorpID = c2.CorpID ∧ c1.AgentID = c2.AgentID ∧
      c1.AgentSecret = c2.AgentSecret) :
    cacheKey c1 = cacheKey c2 ∧
    (cacheLookup cache (cacheKey c1) = some item → item.token ≠ "" →
      now < item.expiresAt →
      GetAccessToken c1 cache now refresh = ⟨Except.ok item.token, cache, false⟩) ∧
    (cacheLookup cache (cacheKey c1) = some item → item.expiresAt ≤ now →
      (GetAccessToken c1 cache now refresh).refreshCalled = true ∧
      (GetAccessToken c1 cache now refresh).result = Except.map Prod.fst refresh) := by
  refine ⟨by simp [cacheKey, hid.1, hid.2.1, hid.2.2], ?_, ?_⟩
  · intro hl htok hlt
    simp [GetAccessToken, hc, hs, hl, htok, hlt]
  · intro hl hle
    have hrw : GetAccessToken c1 cache now refresh
        = GetAccessTokenRefresh c1 cache refresh :=
      GetAccessToken_miss c1 cache now refresh hc hs
        (fun i hi => by rw [hl] at hi; cases hi; exact Or.inr hle)
    rw [hrw]
    cases refresh with
    | error e => simp [GetAccessTokenRefresh, Except.map]
    | ok p => cases p with
      | mk tok exp => simp [GetAccessTokenRefresh, Except.map]

/-- Concrete instantiation of `GetAccessToken_cache_contract`: a fresh,
unexpired entry is served from the cache, leaving it unchanged and making
no refresh call. -/
theorem GetAccessToken_cache_contract_check :
    GetAccessToken ⟨"corp", 1, "sec", ""⟩ [("corp|1|sec", ⟨"tok", 100⟩)] 50
        (Except.ok ("new", 999))
      = ⟨Except.ok "tok", [("corp|1|sec", ⟨"tok", 100⟩)], false⟩ :=
  (GetAccessToken_cache_contract ⟨"corp", 1, "sec", ""⟩ ⟨"corp", 1, "sec", ""⟩
      [("corp|1|sec", ⟨"tok", 100⟩)] 50 (Except.ok ("new", 999)) ⟨"tok", 100⟩
      (by decide) (by decide) ⟨rfl, rfl, rfl⟩).2.1 (by decide) (by decide)
    (by decide)

/-- Claim C5: `GetAccessToken` fails, leaving the cache unchanged, when a
required identity field is empty, when the provider (consulted because
there is no valid cache entry) reports a non-zero error code, and when the
provider response omits the token or gives a non-positive TTL. -/
theorem GetAccessToken_failure_cases (c : WeChatCorpAccount)
    (cache : TokenCache) (now now2 : Int)
    (httpResp : Except String WechatCorpTokenResponse)
    (hmiss : ∀ item, cacheLookup cache (cacheKey c) = some item →
      item.token = "" ∨ item.expiresAt ≤ now) :
    (c.CorpID = "" ∨ c.AgentSecret = "" →
      GetAccessToken c cache now (refreshAccessToken httpResp now2)
        = ⟨Except.error "企业微信应用参数缺失", cache, false⟩) ∧
    (∀ r, httpResp = Except.ok r → c.CorpID ≠ "" → c.AgentSecret ≠ "" →
      (r.ErrCode ≠ 0 →
        GetAccessToken c cache now (refreshAccessToken httpResp now2)
          = ⟨Except.error r.ErrMsg, cache, true⟩) ∧
      (r.ErrCode = 0 → r.AccessToken = "" ∨ r.ExpiresIn ≤ 0 →
        GetAccessToken c cache now (refreshAccessToken httpResp now2)
          = ⟨Except.error "企业微信 access_token 响应无效", cache, true⟩)) := by
  constructor
  · intro h
    simp [GetAccessToken, h]
  · intro r hr hc hs
    subst hr
    rw [GetAccessToken_miss c cache now _ hc hs hmiss]
    constructor
    · intro hcode
      simp [refreshAccessToken, GetAccessTokenRefresh, hcode]
    · intro hcode hbad
      rcases hbad with hb | hb
      · simp [refreshAccessToken, GetAccessTokenRefresh, hcode, hb]
      · simp [refreshAccessToken, GetAccessTokenRefresh, hcode, hb]

/-- Concrete instantiation of `GetAccessToken_failure_cases`: a provider
error code 40001 on an empty cache yields that provider message and stores
nothing. -/
theorem GetAccessToken_failure_cases_check :
    GetAccessToken ⟨"corp", 1, "sec", ""⟩ [] 0
        (refreshAccessToken (Except.ok ⟨40001, "invalid secret", "", 0⟩) 0)
      = ⟨Except.error "invalid secret", [], true⟩ :=
  ((GetAccessToken_failure_cases ⟨"corp", 1, "sec", ""⟩ [] 0 0
      (Except.ok ⟨40001, "invalid secret", "", 0⟩)
      (fun item h => by simp [cacheLookup] at h)).2
      ⟨40001, "invalid secret", "", 0⟩ rfl (by decide) (by decide)).1 (by decide)

/-- Claim C6: each of `SendText`, `SendMarkdown`, `SendTextCard` rejects an
empty target or a non-positive `AgentID` with the corresponding validation
message, performing no token acquisition and no HTTP POST. -/
theorem sendFuncs_validate_before_network (c : WeChatCorpAccount)
    (toUser content title description linkURL : String) (env : SendEnv)
    (h : toUser = "" ∨ c.AgentID ≤ 0) :
    ((SendText c toUser content env).err
        = some (if toUser = "" then "企业微信应用接收者不能为空"
          else "企业微信应用 AgentID 无效") ∧
      (SendText c toUser content env).effects = []) ∧
    ((SendMarkdown c toUser content env).err
        = some (if toUser = "" then "企业微信应用接收者不能为空"
          else "企业微信应用 AgentID 无效") ∧
      (SendMarkdown c toUser content env).effects = []) ∧
    ((SendTextCard c toUser title description linkURL env).err
        = some (if toUser = "" then "企业微信应用接收者不能为空"
          else "企业微信应用 AgentID 无效") ∧
      (SendTextCard c toUser title description linkURL env).effects = []) := by
  by_cases ht : toUser = ""
  · subst ht
    simp [SendText, SendMarkdown, SendTextCard, send]
  · have ha : c.AgentID ≤ 0 := h.resolve_left ht
    simp [SendText, SendMarkdown, SendTextCard, send, ht, ha]

/-- Concrete instantiation of `sendFuncs_validate_before_network`: an empty
target makes `SendText` fail with an empty effect trace. -/
theorem sendFuncs_validate_before_network_check :
    (SendText ⟨"corp", 1, "sec", ""⟩ "" "hello"
        ⟨Except.ok "tok", Except.ok "b", Except.ok "r",
          fun _ => Except.error "x"⟩).effects = [] :=
  (sendFuncs_validate_before_network ⟨"corp", 1, "sec", ""⟩ "" "hello" "t" "d" "u"
      ⟨Except.ok "tok", Except.ok "b", Except.ok "r", fun _ => Except.error "x"⟩
      (Or.inl rfl)).1.2

/-- Claim C7: after a successful format negotiation, the dispatcher invokes
`SendMarkdown` for markdown; the card-style `SendTextCard` for text with a
non-empty title and URL; `SendText` for text otherwise; and any other
negotiated kind terminates Failed with the unknown-content-type message
naming the kind (wrapped in the dispatcher's send-failure marker). -/
theorem SendUnified_dispatch_branching (auth : WayDetailWeChatCorpAccount)
    (config : InsWeChatCorpAccountConfig) (content : UnifiedMessageContent)
    (contentType formattedContent : String)
    (exec : ClientCall → String × Option String) :
    (contentType = "markdown" →
      (SendUnified (some auth) "" (some config)
          (Except.ok (contentType, formattedContent)) content exec).call
        = some (ClientCall.markdown (resolveTarget config content)
            formattedContent)) ∧
    (contentType = "text" → content.Title ≠ "" → content.URL ≠ "" →
      (SendUnified (some auth) "" (some config)
          (Except.ok (contentType, formattedContent)) content exec).call
        = some (ClientCall.textCard (resolveTarget config content)
            content.Title formattedContent content.URL)) ∧
    (contentType = "text" → content.Title = "" ∨ content.URL = "" →
      (SendUnified (some auth) "" (some config)
          (Except.ok (contentType, formattedContent)) content exec).call
        = some (ClientCall.text (resolveTarget config content)
            formattedContent)) ∧
    (contentType ≠ "markdown" → contentType ≠ "text" →
      SendUnified (some auth) "" (some config)
          (Except.ok (contentType, formattedContent)) content exec
        = ⟨"", "发送失败：" ++ ("未知的企业微信应用发送内容类型：" ++ contentType),
            none⟩) := by
  refine ⟨?_, ?_, ?_, ?_⟩
  · intro h
    subst h
    rcases hx : exec (ClientCall.markdown (resolveTarget config content)
        formattedContent) with ⟨r, e⟩
    cases e <;>
      simp [SendUnified, dispatchCall, FormatTypeMarkdown, FormatTypeText, hx]
  · intro h hT hU
    subst h
    rcases hx : exec (ClientCall.textCard (resolveTarget config content)
        content.Title formattedContent content.URL) with ⟨r, e⟩
    cases e <;>
      simp [SendUnified, dispatchCall, FormatTypeMarkdown, FormatTypeText,
        hT, hU, hx]
  · intro h hTU
    subst h
    have hcond : ¬(content.Title ≠ "" ∧ content.URL ≠ "") := by
      rcases hTU with hh | hh
      · intro hx
        exact hx.1 hh
      · intro hx
        exact hx.2 hh
    rcases hx : exec (ClientCall.text (resolveTarget config content)
        formattedContent) with ⟨r, e⟩
    cases e <;>
      simp [SendUnified, dispatchCall, FormatTypeMarkdown, FormatTypeText,
        hcond, hx]
  · intro hm ht
    simp [SendUnified, dispatchCall, FormatTypeMarkdown, FormatTypeText, hm, ht]

/-- Concrete instantiation of `SendUnified_dispatch_branching`: a channel
negotiating text for content with title "Alert" and URL "http://x" takes
the card-style path, not plain text. -/
theorem SendUnified_dispatch_branching_check :
    (SendUnified (some ⟨"corp", 1, "sec", ""⟩) "" (some ⟨"alice"⟩)
        (Except.ok ("text", "rendered")) ⟨"Alert", "http://x", false, []⟩
        (fun _ => ("resp", none))).call
      = some (ClientCall.textCard "alice" "Alert" "rendered" "http://x") :=
  (SendUnified_dispatch_branching ⟨"corp", 1, "sec", ""⟩ ⟨"alice"⟩
      ⟨"Alert", "http://x", false, []⟩ "text" "rendered"
      (fun _ => ("resp", none))).2.1 rfl (by decide) (by decide)

/-- Claim C8: when the parsed send response carries a non-zero error code,
`send` returns the raw body together with an error that is the provider
message, extended with the invalid-recipient diagnostic when `invaliduser`
is populated; a zero error code returns the raw body with no error. -/
theorem send_provider_error_reporting (c : WeChatCorpAccount)
    (req : WechatCorpSendRequest) (env : SendEnv) (body tkn mb : String)
    (res : WechatCorpSendResponse)
    (hu : req.ToUser ≠ "") (ha : 0 < c.AgentID)
    (ht : env.tokenResult = Except.ok tkn)
    (hm : env.marshalResult = Except.ok mb)
    (hp : env.postResult = Except.ok body)
    (hres : env.parse body = Except.ok res) :
    (res.ErrCode ≠ 0 → res.InvalidUser ≠ "" →
      send c req env = ⟨body,
        some (res.ErrMsg ++ " (invaliduser=" ++ res.InvalidUser ++ ")"),
        [NetEffect.getToken, NetEffect.httpPost]⟩) ∧
    (res.ErrCode ≠ 0 → res.InvalidUser = "" →
      send c req env = ⟨body, some res.ErrMsg,
        [NetEffect.getToken, NetEffect.httpPost]⟩) ∧
    (res.ErrCode = 0 →
      send c req env = ⟨body, none,
        [NetEffect.getToken, NetEffect.httpPost]⟩) := by
  have hna : ¬(c.AgentID ≤ 0) := not_le.mpr ha
  refine ⟨?_, ?_, ?_⟩
  · intro h1 h2
    simp [send, hu, hna, ht, hm, hp, hres, h1, h2]
  · intro h1 h2
    simp [send, hu, hna, ht, hm, hp, hres, h1, h2]
  · intro h1
    simp [send, hu, hna, ht, hm, hp, hres, h1]

/-- Concrete instantiation of `send_provider_error_reporting`: error code
81013 with `invaliduser=zhang` yields the combined diagnostic and the raw
body. -/
theorem send_provider_error_reporting_check :
    send ⟨"corp", 1, "sec", ""⟩ ⟨"alice", "text", 1, some "hi", none, none⟩
        ⟨Except.ok "tok", Except.ok "b", Except.ok "raw-body",
          fun _ => Except.ok ⟨81013, "user not exist", "zhang"⟩⟩
      = ⟨"raw-body", some ("user not exist" ++ " (invaliduser=" ++ "zhang" ++ ")"),
          [NetEffect.getToken, NetEffect.httpPost]⟩ :=
  (send_provider_error_reporting ⟨"corp", 1, "sec", ""⟩
      ⟨"alice", "text", 1, some "hi", none, none⟩
      ⟨Except.ok "tok", Except.ok "b", Except.ok "raw-body",
        fun _ => Except.ok ⟨81013, "user not exist", "zhang"⟩⟩
      "raw-body" "tok" "b" ⟨81013, "user not exist", "zhang"⟩
      (by decide) (by decide) rfl rfl rfl rfl).1 (by decide) (by decide)

/-- Claim C9: `getHTTPClient` always yields a client with the 15-second
request timeout and never fails: empty proxy URL → direct; unparseable
proxy URL → direct; a URL with the (case-insensitive) socks5 scheme →
SOCKS5 transport when the dialer can be built, silently direct when it
cannot; any other parseable non-empty URL → HTTP(S) forward proxy. -/
theorem getHTTPClient_transport_selection (c : WeChatCorpAccount)
    (parseURL : String → Option ParsedURL) (dialerOK : ParsedURL → Bool) :
    (getHTTPClient c parseURL dialerOK).timeoutSeconds = 15 ∧
    (c.ProxyURL = "" →
      getHTTPClient c parseURL dialerOK = ⟨15, HTTPTransportKind.direct⟩) ∧
    (parseURL c.ProxyURL = none →
      getHTTPClient c parseURL dialerOK = ⟨15, HTTPTransportKind.direct⟩) ∧
    (∀ u, parseURL c.ProxyURL = some u → c.ProxyURL ≠ "" →
      (hasSocks5Scheme c.ProxyURL = true → dialerOK u = true →
        getHTTPClient c parseURL dialerOK
          = ⟨15, HTTPTransportKind.socks5 (socks5AuthOf u)⟩) ∧
      (hasSocks5Scheme c.ProxyURL = true → dialerOK u = false →
        getHTTPClient c parseURL dialerOK = ⟨15, HTTPTransportKind.direct⟩) ∧
      (hasSocks5Scheme c.ProxyURL = false →
        getHTTPClient c parseURL dialerOK
          = ⟨15, HTTPTransportKind.forwardProxy u⟩)) := by
  refine ⟨?_, ?_, ?_, ?_⟩
  · by_cases he : c.ProxyURL = ""
    · simp [getHTTPClient, he]
    · cases hu : parseURL c.ProxyURL with
      | none => simp [getHTTPClient, he, hu]
      | some u =>
        by_cases hsch : hasSocks5Scheme c.ProxyURL
        · cases hd : dialerOK u <;> simp [getHTTPClient, he, hu, hsch, hd]
        · simp [getHTTPClient, he, hu, hsch]
  · intro he
    simp [getHTTPClient, he]
  · intro hu
    by_cases he : c.ProxyURL = ""
    · simp [getHTTPClient, he]
    · simp [getHTTPClient, he, hu]
  · intro u hu he
    refine ⟨?_, ?_, ?_⟩
    · intro hsch hd
      simp [getHTTPClient, he, hu, hsch, hd]
    · intro hsch hd
      simp [getHTTPClient, he, hu, hsch, hd]
    · intro hsch
      simp [getHTTPClient, he, hu, hsch]

/-- Concrete instantiation of `getHTTPClient_transport_selection`: a
socks5 proxy URL with a buildable dialer produces a SOCKS5 transport under
the 15-second timeout. -/
theorem getHTTPClient_transport_selection_check :
    getHTTPClient ⟨"corp", 1, "sec", "SOCKS5://proxy.example:1080"⟩
        (fun _ => some ⟨"proxy.example:1080", none⟩) (fun _ => true)
      = ⟨15, HTTPTransportKind.socks5 none⟩ :=
  ((getHTTPClient_transport_selection ⟨"corp", 1, "sec", "SOCKS5://proxy.example:1080"⟩
      (fun _ => some ⟨"proxy.example:1080", none⟩) (fun _ => true)).2.2.2
      ⟨"proxy.example:1080", none⟩ rfl (by decide)).1 (by decide) rfl

/-- Claim C10: when the send response body fails to parse as JSON, `send`
still returns the raw body as its first component, alongside the unmarshal
error. -/
theorem send_unmarshal_failure_keeps_body (c : WeChatCorpAccount)
    (req : WechatCorpSendRequest) (env : SendEnv) (body e tkn mb : String)
    (hu : req.ToUser ≠ "") (ha : 0 < c.AgentID)
    (ht : env.tokenResult = Except.ok tkn)
    (hm : env.marshalResult = Except.ok mb)
    (hp : env.postResult = Except.ok body)
    (hres : env.parse body = Except.error e) :
    send c req env = ⟨body, some e, [NetEffect.getToken, NetEffect.httpPost]⟩ := by
  have hna : ¬(c.AgentID ≤ 0) := not_le.mpr ha
  simp [send, hu, hna, ht, hm, hp, hres]

/-- Concrete instantiation of `send_unmarshal_failure_keeps_body`: a
non-JSON response body comes back verbatim with the unmarshal error. -/
theorem send_unmarshal_failure_keeps_body_check :
    send ⟨"corp", 1, "sec", ""⟩ ⟨"alice", "text", 1, some "hi", none, none⟩
        ⟨Except.ok "tok", Except.ok "b", Except.ok "<html>oops</html>",
          fun _ => Except.error "invalid character"⟩
      = ⟨"<html>oops</html>", some "invalid character",
          [NetEffect.getToken, NetEffect.httpPost]⟩ :=
  send_unmarshal_failure_keeps_body ⟨"corp", 1, "sec", ""⟩
    ⟨"alice", "text", 1, some "hi", none, none⟩
    ⟨Except.ok "tok", Except.ok "b", Except.ok "<html>oops</html>",
      fun _ => Except.error "invalid character"⟩
    "<html>oops</html>" "invalid character" "tok" "b"
    (by decide) (by decide) rfl rfl rfl rfl
